import Mathlib

/-!
Verification of the turtle-graphics panel and session-state persistence code
of the `scheme_interpreter_personal` editor.

The development shallowly embeds the two source files:

* `src/editor/static/scripts/state_handler.js` — the module-level `states`
  list of session states, the `base_state` template, and the IndexedDB-backed
  `saveState` / `loadState` operations (`db`, `store`, `load`).
* the unnamed panel file registering the `turtle_graphics` component with the
  layout manager, whose "update" / "resize" / "reset" / "shown" handlers
  redraw an SVG and preserve pan/zoom viewport state.

Session states carry lists of opaque runtime values (historical states,
environment snapshots, drawing moves, test results); the embedding is
parametric in the type `V` of such values.  JavaScript numbers are embedded
as `JSNum`: either not-a-number or an ordinary numeric value (carried as an
integer; none of the verified properties depends on non-integral arithmetic,
only on NaN-ness and on values being passed through unchanged).

Asynchronous callback-style code is embedded by running each handler to
completion on the single-threaded event loop: every operation is a pure
function from the relevant state to the new state, together with the ordered
trace of externally observable events it performs.
-/

namespace SchemeEditor

/-! ## Data model: session states (`state_handler.js`, lines 3-32) -/

/-- One editor session state, the record shape of `base_state`
(`state_handler.js` lines 3-28).  `V` is the type of opaque runtime
values stored in the lists; `test_results` is `undefined` in the template,
embedded as an `Option`. -/
structure SessionState (V : Type) where
  states : List V
  environments : List V
  moves : List V
  out : String
  index : Int
  expr_i : Int
  start : Int
  «end» : Int
  roots : List String
  globalFrameID : Int
  editor_open : Bool
  sub_open : Bool
  env_open : Bool
  turtle_open : Bool
  out_open : Bool
  tests_open : Bool
  test_results : Option V
  file_name : String
deriving DecidableEq, Repr

/-- The `base_state` template object (`state_handler.js` lines 3-28). -/
def base_state (V : Type) : SessionState V where
  states := []
  environments := []
  moves := []
  out := ""
  index := 0
  expr_i := 0
  start := 0
  «end» := 0
  roots := ["demo"]
  globalFrameID := -1
  editor_open := false
  sub_open := false
  env_open := false
  turtle_open := false
  out_open := false
  tests_open := false
  test_results := none
  file_name := ""

/-- `jQuery.extend(\x7b\x7d, s)`: a shallow copy of `s` into a fresh object.
jQuery skips source properties whose value is `undefined`, so the copy lacks
an own `test_results` property when `s.test_results` is `undefined`; reading
an absent property and reading an `undefined`-valued one are both `undefined`,
which the embedding identifies as `Option.none`, so the copy is field-wise
equal to `s`. -/
def jQueryExtend {V : Type} (s : SessionState V) : SessionState V where
  states := s.states
  environments := s.environments
  moves := s.moves
  out := s.out
  index := s.index
  expr_i := s.expr_i
  start := s.start
  «end» := s.«end»
  roots := s.roots
  globalFrameID := s.globalFrameID
  editor_open := s.editor_open
  sub_open := s.sub_open
  env_open := s.env_open
  turtle_open := s.turtle_open
  out_open := s.out_open
  tests_open := s.tests_open
  test_results := s.test_results
  file_name := s.file_name

/-- The initial value of the module-level `states` list:
`let states = [jQuery.extend(\x7b\x7d, base_state)];`
(`state_handler.js` line 30). -/
def states (V : Type) : List (SessionState V) :=
  [jQueryExtend (base_state V)]

/-- `let temp_file = "<temporary>";` (`state_handler.js` line 32). -/
def temp_file : String := "<temporary>"

/-! ## Persistent store adapter (`state_handler.js`, lines 34-84)

The IndexedDB database is named `"state"`; it holds one object store, also
named `"state"`, keyed by the `id` property, with a unique index `by_id` on
`id`.  The object store is embedded as a list of records; `put` replaces the
record holding the same key or appends, and the `by_id` index `get` returns
the first record with the requested `id`. -/

/-- The record shape `\x7bid: 1, state: states\x7d` written by `store`
(`state_handler.js` line 57). -/
structure StateRecord (V : Type) where
  id : Int
  state : List (SessionState V)
deriving DecidableEq, Repr

/-- Contents of the `"state"` object store. -/
abbrev ObjectStore (V : Type) := List (StateRecord V)

/-- Name passed to `indexedDB.open` (`state_handler.js` line 35). -/
def databaseName : String := "state"

/-- Name passed to `db.createObjectStore` (`state_handler.js` line 42). -/
def objectStoreName : String := "state"

/-- `keyPath` of the object store (`state_handler.js` line 42). -/
def objectStoreKeyPath : String := "id"

/-- Name of the index created by `store.createIndex` (line 43). -/
def indexName : String := "by_id"

/-- Key path of the `by_id` index (line 43). -/
def indexKeyPath : String := "id"

/-- The `unique` flag of the `by_id` index (line 43). -/
def indexUnique : Bool := true

/-- IndexedDB `store.put r`: replace the record stored under `r.id`, or add
`r` when no record has that key. -/
def put {V : Type} (os : ObjectStore V) (r : StateRecord V) : ObjectStore V :=
  if os.any (fun q => q.id == r.id) then
    os.map (fun q => if q.id == r.id then r else q)
  else
    os ++ [r]

/-- IndexedDB `index.get k` through the `by_id` index: the record stored
under key `k`, or `undefined` when no record matches. -/
def index_get {V : Type} (os : ObjectStore V) (k : Int) : Option (StateRecord V) :=
  os.find? (fun r => r.id == k)

/-! ## Session state registry (`state_handler.js`, lines 34-95)

The module's mutable state is the in-memory `states` list together with the
persisted object-store contents. -/

/-- The mutable state visible to `state_handler.js`: the module-level
`states` list and the browser's `"state"` object store. -/
structure World (V : Type) where
  states : List (SessionState V)
  store : ObjectStore V
deriving DecidableEq, Repr

/-- Externally observable events performed by a registry operation, in
order. -/
inductive StoreEvent (V : Type) where
  /-- `store.put(\x7bid: 1, state: states\x7d)` was issued. -/
  | putRecord (r : StateRecord V)
  /-- the readwrite transaction fired `oncomplete`. -/
  | txComplete
  /-- `index.get k` was issued. -/
  | getRequest (k : Int)
  /-- the in-memory `states` list was replaced by the fetched value. -/
  | statesReplaced (s : List (SessionState V))
  /-- the user-supplied completion callback was invoked. -/
  | callbackInvoked
deriving DecidableEq, Repr

/-- Outcome of running a handler to completion: normal completion, or the
`TypeError` raised by calling `undefined` as a function. -/
inductive CallResult where
  | completed
  | typeError
deriving DecidableEq, Repr

/-- Number of callback invocations in a trace. -/
def countCallbacks {V : Type} : List (StoreEvent V) → Nat
  | [] => 0
  | StoreEvent.callbackInvoked :: es => countCallbacks es + 1
  | _ :: es => countCallbacks es

/-- `db(callback)` (`state_handler.js` lines 34-51): opens the `"state"`
database, creating the object store and the `by_id` index on first use
(`onupgradeneeded`), then hands the open handle to `callback` and closes it.
A database that did not previously exist is the empty object store, so
opening changes no stored data: the embedding passes the world through to
the continuation unchanged. -/
def db {V : Type} (w : World V) : World V := w

/-- `store(db, callback)` (`state_handler.js` lines 53-66): within a
readwrite transaction, `put` the single record `\x7bid: 1, state: states\x7d`;
on transaction completion invoke `callback` only if it is not `undefined`
(`hasCallback` embeds `callback !== undefined`). -/
def store {V : Type} (w : World V) (hasCallback : Bool) :
    World V × List (StoreEvent V) × CallResult :=
  let r : StateRecord V := { id := 1, state := w.states }
  ({ w with store := put w.store r },
   [StoreEvent.putRecord r, StoreEvent.txComplete]
     ++ (if hasCallback then [StoreEvent.callbackInvoked] else []),
   CallResult.completed)

/-- `load(db, callback)` (`state_handler.js` lines 68-84): within a readonly
transaction, `index.get(1)`; if a matching record was found, replace the
entire in-memory `states` list with `matching.state`; then invoke
`callback()` unconditionally — when `callback` is `undefined` this raises a
`TypeError` (after any replacement of `states` has already happened). -/
def load {V : Type} (w : World V) (hasCallback : Bool) :
    World V × List (StoreEvent V) × CallResult :=
  match index_get w.store 1 with
  | some matching =>
      ({ w with states := matching.state },
       [StoreEvent.getRequest 1, StoreEvent.statesReplaced matching.state]
         ++ (if hasCallback then [StoreEvent.callbackInvoked] else []),
       if hasCallback then CallResult.completed else CallResult.typeError)
  | none =>
      (w,
       [StoreEvent.getRequest 1]
         ++ (if hasCallback then [StoreEvent.callbackInvoked] else []),
       if hasCallback then CallResult.completed else CallResult.typeError)

/-- `loadState(callback)` (`state_handler.js` lines 86-90). -/
def loadState {V : Type} (w : World V) (hasCallback : Bool) :
    World V × List (StoreEvent V) × CallResult :=
  load (db w) hasCallback

/-- `saveState(callback)` (`state_handler.js` lines 92-95). -/
def saveState {V : Type} (w : World V) (hasCallback : Bool) :
    World V × List (StoreEvent V) × CallResult :=
  store (db w) hasCallback

/-! ## Panel controller (the unnamed `turtle_graphics` registration file)

Each panel instance closes over a `ready` flag, the SVG element and the
`svgPanZoom` viewport controller bound to it.  JavaScript numeric viewport
state is embedded as `JSNum` (not-a-number or an ordinary value); the
`zoom` / `pan` locals of a handler start out `undefined`, embedded as
`Option.none`, and `isNaN(undefined)` is `true`. -/

/-- A JavaScript number as far as the panel code observes it: `NaN` or an
ordinary numeric value. -/
inductive JSNum where
  | nan
  | num (v : Int)
deriving DecidableEq, Repr

/-- JavaScript `isNaN` applied to a possibly-`undefined` value:
`isNaN(undefined)` is `true` (the `undefined` → `NaN` coercion), `isNaN` of
an ordinary number is `false`. -/
def jsIsNaN : Option JSNum → Bool
  | none => true
  | some JSNum.nan => true
  | some (JSNum.num _) => false

/-- An `svgPanZoom` pan: a point with `x` and `y` components. -/
structure Pan where
  x : JSNum
  y : JSNum
deriving DecidableEq, Repr

/-- The observable state of an `svgPanZoom` viewport controller instance:
its current zoom and pan. -/
structure Viewport where
  zoom : JSNum
  pan : Pan
deriving DecidableEq, Repr

/-- Stands for `pan(undefined)`: applying an `undefined` pan.  Unreachable
in the source — the `pan` local is `undefined` exactly when the `zoom`
local is, and then the `isNaN(zoom)` branch is taken instead. -/
def undefinedPan : Pan := { x := JSNum.nan, y := JSNum.nan }

/-- The state of one `turtle_graphics` panel instance between events:
the closed-over `ready` flag, the drawing moves currently painted into the
SVG, the SVG element's size, and the attached `svgPanZoom` controller
(`none` when none is attached — before the first event). -/
structure Panel (V : Type) where
  ready : Bool
  svgContent : List V
  svgW : Int
  svgH : Int
  vp : Option Viewport
deriving DecidableEq, Repr

/-- A freshly constructed panel instance: `SVG.adopt(rawSVG).size(w, h)`
with `let ready = false;` and no `svgPanZoom` yet attached. -/
def mkPanel (V : Type) (w h : Int) : Panel V where
  ready := false
  svgContent := []
  svgW := w
  svgH := h
  vp := none

/-- Externally observable actions a panel event handler performs, in
order. -/
inductive Action (V : Type) where
  /-- `svgPanZoom(rawSVG).getZoom()` on the attached controller. -/
  | getZoom
  /-- `svgPanZoom(rawSVG).getPan()` on the attached controller. -/
  | getPan
  /-- `svgPanZoom(rawSVG).destroy()`: the old controller is discarded. -/
  | destroy
  /-- `svg.clear()`: the SVG content is erased. -/
  | svgClear
  /-- `svg.size(w, h)`: the SVG element is resized. -/
  | svgResize (w h : Int)
  /-- `draw(moves)`: the moves are painted into the SVG. -/
  | draw (moves : List V)
  /-- `svgPanZoom(rawSVG, options)`: a fresh controller is attached. -/
  | attach
  /-- `svgPanZoom(rawSVG).reset()`: default framing is restored. -/
  | reset
  /-- `svgPanZoom(rawSVG).zoom(z)`: the captured zoom is applied. -/
  | applyZoom (z : JSNum)
  /-- `svgPanZoom(rawSVG).pan(p)`: the captured pan is applied. -/
  | applyPan (p : Pan)
  /-- `request_update()` is signalled to the external pipeline. -/
  | requestUpdate
deriving DecidableEq, Repr

/-- The `"update"` handler (unnamed panel file, lines 29-48).  `sts` is the
current `states` list, `id` is `componentState.id`, and `fresh` is the
initial framing a freshly attached `svgPanZoom` controller has for the
current content (also what `reset()` restores).

The handler declares `zoom` / `pan` as `undefined`; when `ready` it fills
them from the attached controller and destroys it; it clears the SVG, sets
`ready = true`, draws `states[id].moves`, attaches a fresh controller, and
then either resets (when `isNaN(zoom)`) or applies the captured zoom and
pan.  An out-of-range `id` would fault in the source on reading `.moves` of
`undefined`; the embedding totalises that read with the `base_state`
template and the theorems below only use in-range ids. -/
def onUpdate {V : Type} (sts : List (SessionState V)) (id : Nat)
    (fresh : Viewport) (p : Panel V) : Panel V × List (Action V) :=
  let zoom : Option JSNum := if p.ready then Option.map Viewport.zoom p.vp else none
  let pan : Option Pan := if p.ready then Option.map Viewport.pan p.vp else none
  let captureActs : List (Action V) :=
    if p.ready then [Action.getZoom, Action.getPan, Action.destroy] else []
  let moves : List V := (sts.getD id (base_state V)).moves
  let drawActs : List (Action V) := [Action.svgClear, Action.draw moves, Action.attach]
  if jsIsNaN zoom then
    ({ ready := true, svgContent := moves, svgW := p.svgW, svgH := p.svgH,
       vp := some fresh },
     captureActs ++ drawActs ++ [Action.reset])
  else
    ({ ready := true, svgContent := moves, svgW := p.svgW, svgH := p.svgH,
       vp := some { zoom := zoom.getD JSNum.nan, pan := pan.getD undefinedPan } },
     captureActs ++ drawActs
       ++ [Action.applyZoom (zoom.getD JSNum.nan), Action.applyPan (pan.getD undefinedPan)])

/-- The `"resize"` handler (unnamed panel file, lines 54-73).  `w` and `h`
are the container's current dimensions.  Identical viewport capture/restore
pipeline as the `"update"` handler, but the SVG is resized with
`svg.size(container.width, container.height)` — its content is neither
cleared nor redrawn — and `ready = true` is set at the end. -/
def onResize {V : Type} (w h : Int) (fresh : Viewport) (p : Panel V) :
    Panel V × List (Action V) :=
  let zoom : Option JSNum := if p.ready then Option.map Viewport.zoom p.vp else none
  let pan : Option Pan := if p.ready then Option.map Viewport.pan p.vp else none
  let captureActs : List (Action V) :=
    if p.ready then [Action.getZoom, Action.getPan, Action.destroy] else []
  let sizeActs : List (Action V) := [Action.svgResize w h, Action.attach]
  if jsIsNaN zoom then
    ({ ready := true, svgContent := p.svgContent, svgW := w, svgH := h,
       vp := some fresh },
     captureActs ++ sizeActs ++ [Action.reset])
  else
    ({ ready := true, svgContent := p.svgContent, svgW := w, svgH := h,
       vp := some { zoom := zoom.getD JSNum.nan, pan := pan.getD undefinedPan } },
     captureActs ++ sizeActs
       ++ [Action.applyZoom (zoom.getD JSNum.nan), Action.applyPan (pan.getD undefinedPan)])

/-- The `"reset"` handler (unnamed panel file, lines 50-52):
`svgPanZoom(rawSVG).reset()` unconditionally, restoring the attached
controller's initial framing `fresh`. -/
def onReset {V : Type} (fresh : Viewport) (p : Panel V) : Panel V × List (Action V) :=
  ({ p with vp := p.vp.map (fun _ => fresh) }, [Action.reset])

/-- The `"shown"` handler (unnamed panel file, lines 75-77):
`request_update()` — fire and forget, no panel state change. -/
def onShown {V : Type} (p : Panel V) : Panel V × List (Action V) :=
  (p, [Action.requestUpdate])

/-! ## Concrete instances used to exercise the handlers -/

/-- A concrete initial framing for a freshly attached controller. -/
def cFresh : Viewport where
  zoom := JSNum.num 1
  pan := { x := JSNum.num 0, y := JSNum.num 0 }

/-- A concrete attached viewport with ordinary zoom and pan values. -/
def cViewport : Viewport where
  zoom := JSNum.num 2
  pan := { x := JSNum.num 3, y := JSNum.num 4 }

/-- A concrete attached viewport whose zoom is not-a-number. -/
def cViewportNaN : Viewport where
  zoom := JSNum.nan
  pan := { x := JSNum.num 3, y := JSNum.num 4 }

/-- A concrete panel in the ready state with `cViewport` attached and an
empty SVG. -/
def cPanelReady : Panel Nat where
  ready := true
  svgContent := []
  svgW := 10
  svgH := 10
  vp := some cViewport

/-- A concrete panel in the ready state whose attached viewport has a
not-a-number zoom. -/
def cPanelNaN : Panel Nat where
  ready := true
  svgContent := []
  svgW := 10
  svgH := 10
  vp := some cViewportNaN

/-- A concrete `states` list whose single session state has one drawing
move. -/
def cStates : List (SessionState Nat) :=
  [{ base_state Nat with moves := [5] }]

/-! ## Helper lemmas about the object store -/

theorem find?_map_replace {V : Type} (os : ObjectStore V) (r : StateRecord V)
    (h : os.any (fun q => q.id == r.id) = true) :
    (os.map (fun q => if q.id == r.id then r else q)).find?
        (fun q => q.id == r.id) = some r := by
  induction os with
  | nil => simp at h
  | cons q os ih =>
    simp only [List.any_cons, Bool.or_eq_true] at h
    simp only [List.map_cons]
    by_cases hq : (q.id == r.id) = true
    · rw [if_pos hq]
      exact List.find?_cons_of_pos _ (beq_self_eq_true r.id)
    · rw [if_neg hq, List.find?_cons_of_neg]
      · exact ih (h.resolve_left hq)
      · exact hq

theorem find?_eq_none_of_any_eq_false {V : Type} (os : ObjectStore V)
    (r : StateRecord V) (h : os.any (fun q => q.id == r.id) = false) :
    os.find? (fun q => q.id == r.id) = none := by
  rw [List.find?_eq_none]
  intro x hx
  rw [List.any_eq_false] at h
  exact h x hx

/-- After `put os r`, looking up `r.id` through the index yields `r`. -/
theorem index_get_put {V : Type} (os : ObjectStore V) (r : StateRecord V) :
    index_get (put os r) r.id = some r := by
  unfold put index_get
  by_cases h : os.any (fun q => q.id == r.id) = true
  · rw [if_pos h]
    exact find?_map_replace os r h
  · rw [if_neg h]
    rw [List.find?_append, find?_eq_none_of_any_eq_false os r (by simpa using h)]
    simp [List.find?_cons]

/-- `put` is idempotent: writing the same record twice leaves the store as
after the first write. -/
theorem put_put {V : Type} (os : ObjectStore V) (r : StateRecord V) :
    put (put os r) r = put os r := by
  unfold put
  by_cases h : (os.any fun q => q.id == r.id) = true
  · rw [if_pos h]
    have hany : ((os.map fun q => if q.id == r.id then r else q).any
        fun q => q.id == r.id) = true := by
      rcases List.any_eq_true.mp h with ⟨q, hq, hqid⟩
      refine List.any_eq_true.mpr ⟨r, List.mem_map.mpr ⟨q, hq, ?_⟩, beq_self_eq_true r.id⟩
      rw [if_pos hqid]
    rw [if_pos hany, List.map_map]
    refine List.map_congr_left ?_
    intro q _
    by_cases hq : (q.id == r.id) = true <;> simp [Function.comp, hq]
  · rw [if_neg h]
    have h' : (os.any fun q => q.id == r.id) = false := by
      simpa using h
    have hany : ((os ++ [r]).any fun q => q.id == r.id) = true := by
      rw [List.any_append]
      simp
    rw [if_pos hany, List.map_append]
    have hos : (os.map fun q => if q.id == r.id then r else q) = os := by
      conv_rhs => rw [← List.map_id os]
      refine List.map_congr_left ?_
      intro q hq
      rw [if_neg (List.any_eq_false.mp h' q hq)]
      rfl
    have hr : (([r] : ObjectStore V).map fun q => if q.id == r.id then r else q)
        = [r] := by
      simp only [List.map_cons, List.map_nil, ite_self]
    rw [hos, hr]

/-! ## Claims about the session state registry -/

/-- C5: a freshly constructed registry's `states` list has exactly one
element, and that element — the shallow copy `jQuery.extend(\x7b\x7d,
base_state)` — is structurally equal to `base_state`. -/
theorem c5_fresh_registry_singleton_base_state (V : Type) :
    (states V).length = 1 ∧ states V = [base_state V] :=
  ⟨rfl, rfl⟩

/-- C1: `saveState` of any in-memory `states` list against an empty store,
followed by `loadState` on a fresh registry sharing the persisted store,
yields an in-memory `states` list equal to the one saved; the load replaces
the fresh registry's entire list with the persisted blob. -/
theorem c1_save_load_roundtrip (V : Type) (sts : List (SessionState V))
    (hasCb : Bool) :
    (loadState
        { states := states V,
          store := (saveState { states := sts, store := [] } hasCb).1.store }
        true).1.states = sts ∧
    StoreEvent.statesReplaced sts ∈
      (loadState
        { states := states V,
          store := (saveState { states := sts, store := [] } hasCb).1.store }
        true).2.1 := by
  simp [loadState, saveState, load, store, db, put, index_get, List.find?_cons]

/-- C3: `loadState` against a store holding no record under the fixed key 1
leaves the whole world — in particular the in-memory `states` list —
unchanged, invokes the supplied callback exactly once, and completes
normally. -/
theorem c3_load_empty_store_noop (V : Type) (w : World V)
    (hempty : index_get w.store 1 = none) :
    (loadState w true).1 = w ∧
    countCallbacks (loadState w true).2.1 = 1 ∧
    (loadState w true).2.2 = CallResult.completed := by
  simp [loadState, load, db, hempty, countCallbacks]

/-- Witness for C3 at the initial world with an empty store. -/
theorem c3_witness :
    (loadState { states := states Nat, store := [] } true).1
        = { states := states Nat, store := [] } ∧
    countCallbacks (loadState { states := states Nat, store := [] } true).2.1
        = 1 ∧
    (loadState { states := states Nat, store := [] } true).2.2
        = CallResult.completed :=
  c3_load_empty_store_noop Nat { states := states Nat, store := [] } rfl

/-- C4: every `saveState` call writes the entire in-memory `states` list as
the single record `\x7bid: 1, state: states\x7d` (overwriting whatever the
store held under key 1), into a database named `"state"` whose object store
is named `"state"` and carries the unique index `by_id` on `id`; the
callback event, when present, appears only after the transaction-complete
event. -/
theorem c4_save_writes_single_record (V : Type) (w : World V) (hasCb : Bool) :
    (saveState w hasCb).1.store = put w.store { id := 1, state := w.states } ∧
    index_get (saveState w hasCb).1.store 1
        = some { id := 1, state := w.states } ∧
    (saveState w hasCb).2.1
        = [StoreEvent.putRecord { id := 1, state := w.states },
           StoreEvent.txComplete]
            ++ (if hasCb then [StoreEvent.callbackInvoked] else []) ∧
    databaseName = "state" ∧ objectStoreName = "state" ∧
    indexName = "by_id" ∧ indexKeyPath = "id" ∧ indexUnique = true := by
  refine ⟨rfl, ?_, rfl, rfl, rfl, rfl, rfl, rfl⟩
  exact index_get_put w.store { id := 1, state := w.states }

/-- C8: repeated `saveState` with an unchanged in-memory `states` list is
idempotent: the second save leaves both the world (in-memory list and
persisted store) and the observable event trace exactly as the first save
did. -/
theorem c8_save_idempotent (V : Type) (w : World V) (hasCb : Bool) :
    (saveState (saveState w hasCb).1 hasCb).1 = (saveState w hasCb).1 ∧
    (saveState (saveState w hasCb).1 hasCb).2 = (saveState w hasCb).2 := by
  constructor
  · show ({ states := w.states,
            store := put (put w.store { id := 1, state := w.states })
                { id := 1, state := w.states } } : World V)
        = { states := w.states, store := put w.store { id := 1, state := w.states } }
    rw [put_put]
  · rfl

/-- C9: `saveState` only reads the registry: the in-memory `states` list
after the save (and hence inside its callback) equals its value at the
moment of the call, and the trace contains no replacement of the in-memory
list. -/
theorem c9_save_preserves_states (V : Type) (w : World V) (hasCb : Bool) :
    (saveState w hasCb).1.states = w.states ∧
    (∀ s, StoreEvent.statesReplaced s ∉ (saveState w hasCb).2.1) := by
  refine ⟨rfl, fun s => ?_⟩
  cases hasCb <;> simp [saveState, store, db]

/-- C10: the completion callback is optional for `saveState` — with an
`undefined` callback the write still completes and nothing is invoked — but
mandatory for `loadState`: without a callback the load step still runs (the
resulting world equals the one of a call with a callback) and the handler
then faults with a `TypeError`; with a callback `loadState` completes and
invokes it exactly once. -/
theorem c10_callback_optionality (V : Type) (w : World V) :
    ((saveState w false).2.2 = CallResult.completed ∧
     countCallbacks (saveState w false).2.1 = 0) ∧
    ((loadState w false).2.2 = CallResult.typeError ∧
     countCallbacks (loadState w false).2.1 = 0 ∧
     (loadState w false).1 = (loadState w true).1) ∧
    ((loadState w true).2.2 = CallResult.completed ∧
     countCallbacks (loadState w true).2.1 = 1) ∧
    ((saveState w true).2.2 = CallResult.completed ∧
     countCallbacks (saveState w true).2.1 = 1) := by
  refine ⟨⟨rfl, rfl⟩, ?_, ?_, ⟨rfl, rfl⟩⟩ <;>
    cases h : index_get w.store 1 <;>
      simp [loadState, load, db, h, countCallbacks]

/-! ## Claims about the panel controller -/

/-- C6: with `ready = false`, the `"update"` handler performs no read of a
prior viewport's zoom or pan and no controller destruction: its action
trace is exactly clear, draw, attach, reset — capture and destruction are
skipped entirely. -/
theorem c6_not_ready_update_skips_capture (V : Type)
    (sts : List (SessionState V)) (id : Nat) (fresh : Viewport) (p : Panel V)
    (hready : p.ready = false) :
    (onUpdate sts id fresh p).2
        = [Action.svgClear, Action.draw (sts.getD id (base_state V)).moves,
           Action.attach, Action.reset] ∧
    Action.getZoom ∉ (onUpdate sts id fresh p).2 ∧
    Action.getPan ∉ (onUpdate sts id fresh p).2 ∧
    Action.destroy ∉ (onUpdate sts id fresh p).2 := by
  simp [onUpdate, hready, jsIsNaN]

/-- Witness for C6 at a freshly constructed panel. -/
theorem c6_witness :
    (onUpdate cStates 0 cFresh (mkPanel Nat 100 80)).2
        = [Action.svgClear, Action.draw (cStates.getD 0 (base_state Nat)).moves,
           Action.attach, Action.reset] ∧
    Action.getZoom ∉ (onUpdate cStates 0 cFresh (mkPanel Nat 100 80)).2 ∧
    Action.getPan ∉ (onUpdate cStates 0 cFresh (mkPanel Nat 100 80)).2 ∧
    Action.destroy ∉ (onUpdate cStates 0 cFresh (mkPanel Nat 100 80)).2 :=
  c6_not_ready_update_skips_capture Nat cStates 0 cFresh (mkPanel Nat 100 80) rfl

/-- C7: on a redraw with `ready = true` and an attached viewport `v`, if the
captured zoom is not-a-number both handlers reset the new controller to its
default framing and never apply a zoom or pan; otherwise both apply exactly
the captured zoom and pan, and never reset.  Holds for both the `"update"`
and the `"resize"` handler. -/
theorem c7_nan_zoom_resets (V : Type) (sts : List (SessionState V)) (id : Nat)
    (w h : Int) (fresh : Viewport) (p : Panel V) (v : Viewport)
    (hready : p.ready = true) (hvp : p.vp = some v) :
    ((onUpdate sts id fresh p).1.vp
        = if v.zoom = JSNum.nan then some fresh
          else some { zoom := v.zoom, pan := v.pan }) ∧
    ((onResize w h fresh p).1.vp
        = if v.zoom = JSNum.nan then some fresh
          else some { zoom := v.zoom, pan := v.pan }) ∧
    (v.zoom = JSNum.nan →
        Action.reset ∈ (onUpdate sts id fresh p).2 ∧
        Action.reset ∈ (onResize w h fresh p).2 ∧
        (∀ z, Action.applyZoom z ∉ (onUpdate sts id fresh p).2) ∧
        (∀ q, Action.applyPan q ∉ (onUpdate sts id fresh p).2) ∧
        (∀ z, Action.applyZoom z ∉ (onResize w h fresh p).2) ∧
        (∀ q, Action.applyPan q ∉ (onResize w h fresh p).2)) ∧
    (v.zoom ≠ JSNum.nan →
        Action.applyZoom v.zoom ∈ (onUpdate sts id fresh p).2 ∧
        Action.applyPan v.pan ∈ (onUpdate sts id fresh p).2 ∧
        Action.reset ∉ (onUpdate sts id fresh p).2 ∧
        Action.applyZoom v.zoom ∈ (onResize w h fresh p).2 ∧
        Action.applyPan v.pan ∈ (onResize w h fresh p).2 ∧
        Action.reset ∉ (onResize w h fresh p).2) := by
  cases hz : v.zoom with
  | nan => simp [onUpdate, onResize, hready, hvp, jsIsNaN, hz]
  | num z =>
      have hv : ({ zoom := v.zoom, pan := v.pan } : Viewport) = v := rfl
      simp [onUpdate, onResize, hready, hvp, jsIsNaN, hz, hv]

/-- Witness for C7 at a ready panel with an ordinary captured zoom. -/
theorem c7_witness :
    ((onUpdate cStates 0 cFresh cPanelReady).1.vp
        = if cViewport.zoom = JSNum.nan then some cFresh
          else some { zoom := cViewport.zoom, pan := cViewport.pan }) ∧
    ((onResize 7 8 cFresh cPanelReady).1.vp
        = if cViewport.zoom = JSNum.nan then some cFresh
          else some { zoom := cViewport.zoom, pan := cViewport.pan }) ∧
    (cViewport.zoom = JSNum.nan →
        Action.reset ∈ (onUpdate cStates 0 cFresh cPanelReady).2 ∧
        Action.reset ∈ (onResize 7 8 cFresh cPanelReady).2 ∧
        (∀ z, Action.applyZoom z ∉ (onUpdate cStates 0 cFresh cPanelReady).2) ∧
        (∀ q, Action.applyPan q ∉ (onUpdate cStates 0 cFresh cPanelReady).2) ∧
        (∀ z, Action.applyZoom z ∉ (onResize 7 8 cFresh cPanelReady).2) ∧
        (∀ q, Action.applyPan q ∉ (onResize 7 8 cFresh cPanelReady).2)) ∧
    (cViewport.zoom ≠ JSNum.nan →
        Action.applyZoom cViewport.zoom ∈ (onUpdate cStates 0 cFresh cPanelReady).2 ∧
        Action.applyPan cViewport.pan ∈ (onUpdate cStates 0 cFresh cPanelReady).2 ∧
        Action.reset ∉ (onUpdate cStates 0 cFresh cPanelReady).2 ∧
        Action.applyZoom cViewport.zoom ∈ (onResize 7 8 cFresh cPanelReady).2 ∧
        Action.applyPan cViewport.pan ∈ (onResize 7 8 cFresh cPanelReady).2 ∧
        Action.reset ∉ (onResize 7 8 cFresh cPanelReady).2) :=
  c7_nan_zoom_resets Nat cStates 0 7 8 cFresh cPanelReady cViewport rfl rfl

/-- C2 as stated is false: the `"resize"` handler of a ready panel never
clears the SVG and never redraws it from `states[id].moves` — at this
concrete ready panel, neither a clear action nor a draw action occurs in
the resize trace, and the SVG content is left untouched rather than redrawn
from the session's moves. -/
theorem c2_counterexample :
    Action.svgClear ∉ (onResize 7 8 cFresh cPanelReady).2 ∧
    Action.draw (cStates.getD 0 (base_state Nat)).moves
        ∉ (onResize 7 8 cFresh cPanelReady).2 ∧
    (onResize 7 8 cFresh cPanelReady).1.svgContent
        ≠ (cStates.getD 0 (base_state Nat)).moves := by
  decide

/-- C2 amended: with `ready = true` and attached viewport `v`, the
`"update"` and `"resize"` handlers share the capture (get zoom, get pan,
destroy), re-attach and restore (reset when the captured zoom is
not-a-number, otherwise apply the captured zoom and pan) pipeline; but in
between, `"update"` clears and redraws the SVG from `states[id].moves`
while `"resize"` only resizes the SVG element, leaving its content
unchanged. -/
theorem c2_update_resize_pipeline (V : Type) (sts : List (SessionState V))
    (id : Nat) (w h : Int) (fresh : Viewport) (p : Panel V) (v : Viewport)
    (hready : p.ready = true) (hvp : p.vp = some v) :
    ((onUpdate sts id fresh p).2
        = [Action.getZoom, Action.getPan, Action.destroy]
            ++ [Action.svgClear, Action.draw (sts.getD id (base_state V)).moves,
                Action.attach]
            ++ (if v.zoom = JSNum.nan then [Action.reset]
                else [Action.applyZoom v.zoom, Action.applyPan v.pan])) ∧
    ((onResize w h fresh p).2
        = [Action.getZoom, Action.getPan, Action.destroy]
            ++ [Action.svgResize w h, Action.attach]
            ++ (if v.zoom = JSNum.nan then [Action.reset]
                else [Action.applyZoom v.zoom, Action.applyPan v.pan])) ∧
    (onUpdate sts id fresh p).1.svgContent
        = (sts.getD id (base_state V)).moves ∧
    (onResize w h fresh p).1.svgContent = p.svgContent := by
  cases hz : v.zoom with
  | nan => simp [onUpdate, onResize, hready, hvp, jsIsNaN, hz]
  | num z => simp [onUpdate, onResize, hready, hvp, jsIsNaN, hz]

/-- Witness for the amended C2 at a ready panel with a not-a-number zoom. -/
theorem c2_witness :
    ((onUpdate cStates 0 cFresh cPanelNaN).2
        = [Action.getZoom, Action.getPan, Action.destroy]
            ++ [Action.svgClear, Action.draw (cStates.getD 0 (base_state Nat)).moves,
                Action.attach]
            ++ (if cViewportNaN.zoom = JSNum.nan then [Action.reset]
                else [Action.applyZoom cViewportNaN.zoom,
                      Action.applyPan cViewportNaN.pan])) ∧
    ((onResize 3 4 cFresh cPanelNaN).2
        = [Action.getZoom, Action.getPan, Action.destroy]
            ++ [Action.svgResize 3 4, Action.attach]
            ++ (if cViewportNaN.zoom = JSNum.nan then [Action.reset]
                else [Action.applyZoom cViewportNaN.zoom,
                      Action.applyPan cViewportNaN.pan])) ∧
    (onUpdate cStates 0 cFresh cPanelNaN).1.svgContent
        = (cStates.getD 0 (base_state Nat)).moves ∧
    (onResize 3 4 cFresh cPanelNaN).1.svgContent = cPanelNaN.svgContent :=
  c2_update_resize_pipeline Nat cStates 0 3 4 cFresh cPanelNaN cViewportNaN rfl rfl

end SchemeEditor
